import Mathlib

set_option linter.unusedVariables false

/-!
Verification development for the B2G `mach` command-line dispatch framework
(`python/mach/mach/main.py`, `python/mach/mach/base.py`, and the command
modules under `python/b2g/mach/commands/`).

Python values, namespaces and stack frames are shallowly embedded; the
dispatch, error-classification and command-normalization logic is translated
function by function from the source. The `mach.registrar` module is not part
of the sources at hand; where its behaviour is needed it is modelled from the
specification and marked as such.
-/

namespace B2G

/-- Shallow embedding of the Python values that flow through the dispatcher:
handler return values and namespace attribute values. -/
inductive PyValue where
  | none
  | bool (b : Bool)
  | int (n : Int)
  | str (s : String)
deriving Repr, DecidableEq

/-- Python truthiness (`bool(x)`): `None`, `False`, `0` and the empty string
are falsy; everything else here is truthy. -/
def PyValue.isTruthy : PyValue → Bool
  | .none => false
  | .bool b => b
  | .int n => n != 0
  | .str s => s != ""

/-- Python `isinstance(x, int)`. In Python, `bool` is a subclass of `int`,
so booleans count as integers. -/
def PyValue.isInstanceInt : PyValue → Bool
  | .int _ => true
  | .bool _ => true
  | _ => false

/-- Embedding of the result-normalization step of `Mach._run`
(main.py lines 252-260): a falsy handler result is replaced by `0`, then
`assert isinstance(result, int)` runs; `Option.none` models the assertion
failing, `some r` models `return result`. -/
def normalizeResult (result : PyValue) : Option PyValue :=
  let result := if !result.isTruthy then PyValue.int 0 else result
  if result.isInstanceInt then some result else Option.none

/-- `CONSUMED_ARGUMENTS` from main.py lines 24-33: namespace keys consumed by
the driver itself and never proxied to a handler. -/
def CONSUMED_ARGUMENTS : List String :=
  ["settings_file", "verbose", "logfile", "log_interval", "command", "cls",
   "method", "func"]

/-- Embedding of the `stripped` dict comprehension of `Mach._run`
(main.py lines 236-237): the parsed namespace (an association list of
attribute name and value) restricted to keys outside `CONSUMED_ARGUMENTS`. -/
def stripConsumed (ns : List (String × PyValue)) : List (String × PyValue) :=
  ns.filter (fun kv => !CONSUMED_ARGUMENTS.contains kv.1)

/-- A traceback frame as produced by `traceback.extract_tb`: a tuple of
source filename, line number, function name and source text. -/
structure Frame where
  filename : String
  line : Nat
  funcName : String
  text : String
deriving Repr, DecidableEq

/-- The `COMMAND_ERROR` banner from main.py lines 54-59 (after `lstrip`). -/
def COMMAND_ERROR : String :=
  "The error occurred in the implementation of the invoked mach command.\n\nThis should never occur and is likely a bug in the implementation of that\ncommand. Consider filing a bug for this issue.\n"

/-- The `MODULE_ERROR` banner from main.py lines 61-66 (after `lstrip`). -/
def MODULE_ERROR : String :=
  "The error occured in code that was called by the mach command. This is either\na bug in the called code itself or in the way that mach is calling it.\n\nYou should consider filing a bug for this issue.\n"

/-- Embedding of the `except Exception` handler of `Mach._run`
(main.py lines 263-295). The input is the full extracted traceback; the
first (dispatcher) frame is dropped, the remaining frames are partitioned
by comparison of each filename with the filename of the first remaining
frame, and the banner plus exit code 1 is returned. When no frame remains,
the indexing `stack[0]` raises, modelled by `Option.none`. -/
def runExceptionHandler (fullStack : List Frame) : Option (String × Int) :=
  let stack := fullStack.drop 1
  match stack with
  | [] => Option.none
  | f0 :: _ =>
    let initial_file := f0.filename
    let command_frames := stack.filter (fun f => f.filename == initial_file)
    let other_frames := stack.filter (fun f => f.filename != initial_file)
    some (if other_frames.length != 0 then MODULE_ERROR else COMMAND_ERROR, 1)

/-- Outcome of the custom `ArgumentParser.error` hook of main.py lines 72-80:
either the standard argparse error path (which reports the message and
exits), or the invalid-command path that prints a notice plus the full help
and exits with the given code. -/
inductive ErrorOutcome where
  | standardParserError (message : String)
  | invalidCommandHelp (exitCode : Int)
deriving Repr, DecidableEq

/-- Embedding of the Python string method `startswith`, stated over the
character lists of the two strings. -/
def pyStartsWith (s pre : String) : Bool :=
  pre.toList.isPrefixOf s.toList

/-- Embedding of `ArgumentParser.error` (main.py lines 72-80): messages not
starting with the invalid-choice prefix are delegated to
`argparse.ArgumentParser.error`; invalid-choice messages print the notice
and the full help, then `sys.exit(1)`. -/
def argumentParserError (message : String) : ErrorOutcome :=
  if !(pyStartsWith message "argument command: invalid choice") then
    ErrorOutcome.standardParserError message
  else
    ErrorOutcome.invalidCommandHelp 1

/-- Embedding of the status check at the end of `BaseMixin._run_command`
(base.py lines 192-197): after waiting for the child, a non-zero status
with `ignore_errors` false raises an exception (modelled as `Except.error`
carrying the argument vector interpolated into the message); otherwise the
status is returned. -/
def runCommandStatusCheck (args : List String) (status : Int)
    (ignore_errors : Bool) : Except (List String) Int :=
  if status != 0 && !ignore_errors then Except.error args
  else Except.ok status

/-- One argument specification as captured by `@CommandArgument`: the
positional arguments (flag strings) and keyword arguments that are proxied
to `ArgumentParser.add_argument`. -/
structure ArgSpec where
  flags : List String
  kwargs : List (String × PyValue)
deriving Repr, DecidableEq

/-- Embedding of `CommandArgument.__call__` (base.py lines 114-121): it
reads `_mach_command_args` from the function (defaulting to the empty
list), appends its own specification, and stores the list back. -/
def commandArgumentCall (spec : ArgSpec) (machCommandArgs : Option (List ArgSpec)) :
    List ArgSpec :=
  machCommandArgs.getD [] ++ [spec]

/-- Application of a stack of `@CommandArgument` decorators written in the
given source order. Python applies decorators bottom-up, so the
specification nearest the function (the last of the source-order list) is
attached first. -/
def applySecondaryDecorators : List ArgSpec → List ArgSpec → List ArgSpec
  | [], funcAttrs => funcAttrs
  | spec :: rest, funcAttrs =>
    commandArgumentCall spec (some (applySecondaryDecorators rest funcAttrs))

/-- Modelled from the spec: `populate_argument_parser` lives in
`mach.registrar`, which is not among the sources at hand. Per the spec the
stored argument specifications are read in reverse of their stored order,
so that the first-declared specification ends up first in the built
parser. -/
def resolveArgumentOrder (stored : List ArgSpec) : List ArgSpec :=
  stored.reverse

/-- A registered command descriptor. The registry itself lives in
`mach.registrar` (not among the sources at hand); per the spec a
registration appends a descriptor. -/
structure Descriptor where
  providerClass : String
  methodName : String
  commandName : String
  argumentSpecs : List ArgSpec
deriving Repr, DecidableEq

/-- Process-wide mutable state touched by `Mach.__init__`: the
`MODULES_SCANNED` guard (main.py line 35) and the command registry. -/
structure MachProcessState where
  modulesScanned : Bool
  registry : List Descriptor
deriving Repr, DecidableEq

/-- Embedding of the scan guard in `Mach.__init__` (main.py lines 126-143):
when `MODULES_SCANNED` is false, `_load_modules` runs and its registration
side effects (modelled from the spec as appending descriptors, since
`mach.registrar` is not among the sources) extend the registry; afterwards
the guard is set unconditionally. -/
def machInit (scanEffects : List Descriptor) (st : MachProcessState) :
    MachProcessState :=
  let st1 :=
    if !st.modulesScanned then
      { st with registry := st.registry ++ scanEffects }
    else st
  { st1 with modulesScanned := true }

/-- Embedding of `args[0].replace(chr(92), chr(47))` in
`BaseMixin._normalize_command` (base.py line 214): every backslash in the
program path becomes a forward slash. -/
def slashify (s : String) : String :=
  String.mk (s.toList.map (fun c => if c == '\\' then '/' else c))

/-- Whether `subprocess.list2cmdline` must quote an argument: it contains a
space or a tab, or is empty. -/
def needquote (arg : String) : Bool :=
  arg.toList.contains ' ' || arg.toList.contains '\t' || arg.toList.isEmpty

/-- The character loop of `subprocess.list2cmdline` for one argument, with
the count of pending backslashes (`bs_buf`) threaded through: backslashes
are buffered; before a double quote the buffered backslashes are doubled
and the quote is escaped; before any other character they are emitted
plainly. At the end the pending backslashes are emitted, doubled when the
argument is being quoted, and the closing quote is appended. -/
def cmdlineQuoteChars (nq : Bool) : List Char → Nat → List Char
  | [], bs =>
    List.replicate bs '\\' ++
      (if nq then List.replicate bs '\\' ++ ['"'] else [])
  | c :: rest, bs =>
    if c == '\\' then cmdlineQuoteChars nq rest (bs + 1)
    else if c == '"' then
      List.replicate (2 * bs) '\\' ++ ['\\', '"'] ++ cmdlineQuoteChars nq rest 0
    else
      List.replicate bs '\\' ++ [c] ++ cmdlineQuoteChars nq rest 0

/-- `subprocess.list2cmdline` applied to one argument: the opening quote
when quoting is needed, then the translated characters. -/
def list2cmdlineArg (arg : String) : String :=
  let nq := needquote arg
  (if nq then "\"" else "") ++ String.mk (cmdlineQuoteChars nq arg.toList 0)

/-- Embedding of `subprocess.list2cmdline` (Python standard library, called
by base.py line 222): the per-argument translations joined by single
spaces. -/
def list2cmdline (args : List String) : String :=
  String.intercalate " " (args.map list2cmdlineArg)

/-- Embedding of `BaseMixin._normalize_command` (base.py lines 199-223).
`currentShell` and `inMsys` stand for the module-level `_current_shell` and
`_in_msys` (base.py lines 21-36; `_in_msys` is true exactly when `MSYSTEM`
equals `MINGW32`). The empty argument vector fails the assertion, modelled
by `Option.none`. When the unix environment is not required or the process
is not in msys, the vector is returned unchanged; otherwise the program
path is slash-normalized, the vector is joined by `list2cmdline`, and the
command is rewritten to run through the shell with `-c`. -/
def normalizeCommand (currentShell : String) (inMsys : Bool)
    (args : List String) (require_unix_environment : Bool) :
    Option (List String) :=
  match args with
  | [] => Option.none
  | a0 :: rest =>
    if !require_unix_environment || !inMsys then some (a0 :: rest)
    else
      let prog := slashify a0
      let cline := list2cmdline (prog :: rest)
      some [currentShell, "-c", cline]

/-- Embedding of `os.path.join` for the two-component posix case used by
the command modules: an absolute second component wins; otherwise a
separator is inserted unless the first component is empty or already ends
with one. -/
def pathJoin (a b : String) : String :=
  if b.toList.head? == some '/' then b
  else if a.toList.isEmpty || a.toList.getLast? == some '/' then a ++ b
  else a ++ "/" ++ b

/-- Embedding of the body of `Flash.flash` (flash.py lines 22-28): the
external argument vector starts with `<cwd>/flash.sh`, then the serial
number when present, then the project. -/
def flashArgs (cwd : String) (project : String) (serial_number : Option String) :
    List String :=
  let args := [pathJoin cwd "flash.sh"]
  let args :=
    match serial_number with
    | some s => args ++ [s]
    | Option.none => args
  args ++ [project]

/-- Modelled from the spec: argparse parsing of the flash subcommand
arguments (the argparse library is external). The declared grammar
(flash.py lines 17-21) is one optional `--serial-number`/`-s` taking a
value and one positional `project` restricted to gecko, gaia or time.
Tokens are consumed left to right; an unknown token, a repeated
positional, or a missing positional fails the parse. -/
def parseFlashTokens : List String → Option String → Option String →
    Option (Option String × String)
  | [], ser, some proj => some (ser, proj)
  | [], _, Option.none => Option.none
  | "--serial-number" :: v :: rest, _, proj => parseFlashTokens rest (some v) proj
  | "-s" :: v :: rest, _, proj => parseFlashTokens rest (some v) proj
  | tok :: rest, ser, Option.none =>
    if tok == "gecko" || tok == "gaia" || tok == "time" then
      parseFlashTokens rest ser (some tok)
    else Option.none
  | _ :: _, _, some _ => Option.none

/-- The parsed namespace produced for a successful flash invocation: the
routing defaults contributed by the registered subparser (`command`, `cls`,
`method`), the global-option defaults of `get_argument_parser`
(main.py lines 358-373), and the two flash-specific attributes. -/
def flashNamespace (parsed : Option String × String) : List (String × PyValue) :=
  [("command", PyValue.str "flash"),
   ("cls", PyValue.str "Flash"),
   ("method", PyValue.str "flash"),
   ("verbose", PyValue.bool false),
   ("logfile", PyValue.none),
   ("log_interval", PyValue.bool false),
   ("serial_number",
     match parsed.1 with
     | some s => PyValue.str s
     | Option.none => PyValue.none),
   ("project", PyValue.str parsed.2)]

/-- The dispatch pipeline for a flash invocation as performed by
`Mach._run` (main.py lines 220-253): parse the argument vector, strip the
consumed keys, and hand the remaining keyword arguments to the handler.
The result pairs the stripped keyword arguments with the external argument
vector the handler builds. -/
def dispatchFlash (cwd : String) (argv : List String) :
    Option (List (String × PyValue) × List String) :=
  match argv with
  | "flash" :: rest =>
    match parseFlashTokens rest Option.none Option.none with
    | Option.none => Option.none
    | some parsed =>
      let stripped := stripConsumed (flashNamespace parsed)
      some (stripped, flashArgs cwd parsed.2 parsed.1)
  | _ => Option.none

/-- A stream object as seen by `Mach.run`: either an underlying file object
with an identity and a reported `encoding` attribute, or a codec wrapper
produced by `codecs.getreader` or `codecs.getwriter` around another
stream. -/
inductive StreamObj where
  | base (id : Nat) (encoding : Option String)
  | codecReader (codec : String) (inner : StreamObj)
  | codecWriter (codec : String) (inner : StreamObj)
deriving Repr, DecidableEq

/-- The `encoding` attribute of a stream: the declared encoding for a base
stream, the codec name for a wrapper. -/
def StreamObj.encoding : StreamObj → Option String
  | .base _ e => e
  | .codecReader c _ => some c
  | .codecWriter c _ => some c

/-- The triple of process-wide standard streams (`sys.stdin`, `sys.stdout`,
`sys.stderr`). -/
structure SysStreams where
  stdin : StreamObj
  stdout : StreamObj
  stderr : StreamObj
deriving Repr, DecidableEq

/-- How the body of the `try` block in `Mach.run` ends: `_run` returns a
code, a `KeyboardInterrupt` reaches the first handler, or another exception
escaping `_run` reaches the second handler. Both handlers return 1. -/
inductive RunOutcome where
  | normal (code : Int)
  | keyboardInterrupt
  | exceptionInRun
deriving Repr, DecidableEq

/-- Embedding of the stream bookkeeping of `Mach.run`
(main.py lines 145-203) as explicit state passing over `SysStreams`. The
defaults are computed from the current streams, the originals are saved,
the three assignments replace the streams one by one, the `try` block
wraps any stream whose encoding is `None` in a utf-8 codec wrapper, the
body ends as described by `outcome`, and the `finally` block assigns the
three saved originals back. The returned pair is the exit code and the
final stream state. -/
def machRun (sys0 : SysStreams) (argIn argOut argErr : Option StreamObj)
    (outcome : RunOutcome) : Int × SysStreams :=
  let stdin := match argIn with
    | Option.none => sys0.stdin
    | some s => s
  let stdout := match argOut with
    | Option.none => sys0.stdout
    | some s => s
  let stderr := match argErr with
    | Option.none => sys0.stderr
    | some s => s
  let orig_stdin := sys0.stdin
  let orig_stdout := sys0.stdout
  let orig_stderr := sys0.stderr
  let sys1 := { sys0 with stdin := stdin }
  let sys2 := { sys1 with stdout := stdout }
  let sys3 := { sys2 with stderr := stderr }
  let sys4 :=
    if stdin.encoding == Option.none then
      { sys3 with stdin := StreamObj.codecReader "utf-8" stdin }
    else sys3
  let sys5 :=
    if stdout.encoding == Option.none then
      { sys4 with stdout := StreamObj.codecWriter "utf-8" stdout }
    else sys4
  let sys6 :=
    if stderr.encoding == Option.none then
      { sys5 with stderr := StreamObj.codecWriter "utf-8" stderr }
    else sys5
  let code : Int :=
    match outcome with
    | RunOutcome.normal c => c
    | RunOutcome.keyboardInterrupt => 1
    | RunOutcome.exceptionInRun => 1
  let sysF1 := { sys6 with stdin := orig_stdin }
  let sysF2 := { sysF1 with stdout := orig_stdout }
  let sysF3 := { sysF2 with stderr := orig_stderr }
  (code, sysF3)

/-- C1: when a handler raises a non-KeyboardInterrupt exception, `Mach._run`
drops the first (dispatcher) frame of the captured traceback and partitions
the remaining frames by whether each filename equals the filename of the
first remaining frame; when every remaining frame is from that file the
failure is reported with the COMMAND_ERROR banner, otherwise with the
MODULE_ERROR banner, and in both cases the exit code is 1. -/
theorem run_classifies_by_frame_origin (fullStack : List Frame) (f0 : Frame)
    (rest : List Frame) (h : fullStack.drop 1 = f0 :: rest) :
    ((∀ f ∈ f0 :: rest, f.filename = f0.filename) →
       runExceptionHandler fullStack = some (COMMAND_ERROR, 1)) ∧
    ((∃ f ∈ f0 :: rest, f.filename ≠ f0.filename) →
       runExceptionHandler fullStack = some (MODULE_ERROR, 1)) := by
  have heval : runExceptionHandler fullStack =
      some (if (((f0 :: rest).filter (fun f => f.filename != f0.filename)).length != 0)
        then MODULE_ERROR else COMMAND_ERROR, 1) := by
    simp only [runExceptionHandler, h]
  constructor
  · intro hall
    have hfil : (f0 :: rest).filter (fun f => f.filename != f0.filename) = [] := by
      rw [List.filter_eq_nil_iff]
      intro a ha
      simp [hall a ha]
    rw [heval, hfil]
    simp
  · rintro ⟨f, hf, hne⟩
    have hmem : f ∈ (f0 :: rest).filter (fun g => g.filename != f0.filename) := by
      rw [List.mem_filter]
      exact ⟨hf, by simp [hne]⟩
    have hpos : 0 < ((f0 :: rest).filter (fun g => g.filename != f0.filename)).length :=
      List.length_pos.mpr (List.ne_nil_of_mem hmem)
    have hlen : (((f0 :: rest).filter (fun g => g.filename != f0.filename)).length != 0)
        = true := by
      simp only [bne_iff_ne, ne_eq]
      omega
    rw [heval, hlen]
    simp

/-- Closed instance of `run_classifies_by_frame_origin`: a two-frame handler
stack entirely in one file is a command error; a stack with a frame in
another file is a module error. -/
theorem run_classifies_by_frame_origin_witness :
    runExceptionHandler
        [⟨"main.py", 253, "_run", ""⟩, ⟨"mod.py", 10, "f", ""⟩,
         ⟨"mod.py", 12, "g", ""⟩] = some (COMMAND_ERROR, 1) ∧
    runExceptionHandler
        [⟨"main.py", 253, "_run", ""⟩, ⟨"mod.py", 10, "f", ""⟩,
         ⟨"other.py", 3, "h", ""⟩] = some (MODULE_ERROR, 1) :=
  ⟨(run_classifies_by_frame_origin
      [⟨"main.py", 253, "_run", ""⟩, ⟨"mod.py", 10, "f", ""⟩, ⟨"mod.py", 12, "g", ""⟩]
      ⟨"mod.py", 10, "f", ""⟩ [⟨"mod.py", 12, "g", ""⟩] rfl).1 (by decide),
   (run_classifies_by_frame_origin
      [⟨"main.py", 253, "_run", ""⟩, ⟨"mod.py", 10, "f", ""⟩, ⟨"other.py", 3, "h", ""⟩]
      ⟨"mod.py", 10, "f", ""⟩ [⟨"other.py", 3, "h", ""⟩] rfl).2
     ⟨⟨"other.py", 3, "h", ""⟩, by decide, by decide⟩⟩

/-- C2: the dispatcher normalizes the handler result: a falsy result yields
exit code 0, a non-zero integer is returned unchanged, and a truthy value
that is not an integer fails the assertion (`Option.none`). -/
theorem run_normalizes_result (r : PyValue) :
    (r.isTruthy = false → normalizeResult r = some (PyValue.int 0)) ∧
    (∀ n : Int, n ≠ 0 → normalizeResult (PyValue.int n) = some (PyValue.int n)) ∧
    (r.isTruthy = true → r.isInstanceInt = false →
       normalizeResult r = Option.none) := by
  refine ⟨fun hf => ?_, fun n hn => ?_, fun ht hi => ?_⟩
  · simp [normalizeResult, PyValue.isInstanceInt, hf]
  · simp [normalizeResult, PyValue.isTruthy, PyValue.isInstanceInt, hn]
  · simp [normalizeResult, ht, hi]

/-- Closed instance of `run_normalizes_result`: None gives exit 0, the
integer 3 passes through, a non-empty string fails the assertion. -/
theorem run_normalizes_result_witness :
    normalizeResult PyValue.none = some (PyValue.int 0) ∧
    normalizeResult (PyValue.int 3) = some (PyValue.int 3) ∧
    normalizeResult (PyValue.str "x") = Option.none :=
  ⟨(run_normalizes_result PyValue.none).1 (by decide),
   (run_normalizes_result PyValue.none).2.1 3 (by decide),
   (run_normalizes_result (PyValue.str "x")).2.2 (by decide) (by decide)⟩

/-- C3: the keyword arguments passed to a handler are exactly the parsed
namespace entries whose key is outside `CONSUMED_ARGUMENTS`; no consumed
key is ever present in the stripped namespace. -/
theorem stripped_namespace_exact (ns : List (String × PyValue)) :
    (∀ kv : String × PyValue, kv ∈ stripConsumed ns ↔
       kv ∈ ns ∧ kv.1 ∉ CONSUMED_ARGUMENTS) ∧
    (∀ k ∈ CONSUMED_ARGUMENTS, ∀ v : PyValue, (k, v) ∉ stripConsumed ns) := by
  have hmain : ∀ kv : String × PyValue, kv ∈ stripConsumed ns ↔
      kv ∈ ns ∧ kv.1 ∉ CONSUMED_ARGUMENTS := by
    intro kv
    simp [stripConsumed, List.mem_filter]
  exact ⟨hmain, fun k hk v hmem => ((hmain (k, v)).mp hmem).2 hk⟩

/-- Closed instance of `stripped_namespace_exact`: the verbose entry is
stripped from a concrete namespace and the project entry is kept. -/
theorem stripped_namespace_exact_witness :
    ("verbose", PyValue.bool false) ∉
      stripConsumed [("verbose", PyValue.bool false), ("project", PyValue.str "gaia")] ∧
    ("project", PyValue.str "gaia") ∈
      stripConsumed [("verbose", PyValue.bool false), ("project", PyValue.str "gaia")] :=
  ⟨(stripped_namespace_exact _).2 "verbose" (by decide) (PyValue.bool false),
   ((stripped_namespace_exact _).1 ("project", PyValue.str "gaia")).mpr
     ⟨by decide, by decide⟩⟩

/-- C4: for secondary argument declarations written in source order A, B, C
(C nearest the function), the decorator mechanism attaches the specs to the
function in reverse source order, and the spec-modelled parser resolution
restores the author order A, B, C. -/
theorem argument_specs_attach_reversed (A B C : ArgSpec) :
    applySecondaryDecorators [A, B, C] [] = [A, B, C].reverse ∧
    resolveArgumentOrder (applySecondaryDecorators [A, B, C] []) = [A, B, C] :=
  ⟨rfl, rfl⟩

/-- C5: dispatching `flash --serial-number ABC123 gaia` hands the handler
exactly the keyword arguments serial_number and project and builds the
external vector `[<cwd>/flash.sh, ABC123, gaia]`; dispatching `flash time`
builds `[<cwd>/flash.sh, time]` with no serial-number element. -/
theorem flash_invocation_scenarios (cwd : String) :
    dispatchFlash cwd ["flash", "--serial-number", "ABC123", "gaia"] =
      some ([("serial_number", PyValue.str "ABC123"), ("project", PyValue.str "gaia")],
        [pathJoin cwd "flash.sh", "ABC123", "gaia"]) ∧
    dispatchFlash cwd ["flash", "time"] =
      some ([("serial_number", PyValue.none), ("project", PyValue.str "time")],
        [pathJoin cwd "flash.sh", "time"]) :=
  ⟨rfl, rfl⟩

/-- C6: an error message carrying the invalid-choice prefix takes the
help-printing path and exits with code 1; every other message goes through
the standard argparse error path. -/
theorem parser_error_paths (message : String) :
    (pyStartsWith message "argument command: invalid choice" = true →
       argumentParserError message = ErrorOutcome.invalidCommandHelp 1) ∧
    (pyStartsWith message "argument command: invalid choice" = false →
       argumentParserError message = ErrorOutcome.standardParserError message) := by
  constructor <;> intro h <;> simp [argumentParserError, h]

/-- Closed instance of `parser_error_paths`: a concrete invalid-choice
message prints help and exits 1; a concrete other message is delegated. -/
theorem parser_error_paths_witness :
    argumentParserError "argument command: invalid choice: frob" =
      ErrorOutcome.invalidCommandHelp 1 ∧
    argumentParserError "too few arguments" =
      ErrorOutcome.standardParserError "too few arguments" :=
  ⟨(parser_error_paths _).1 (by decide), (parser_error_paths _).2 (by decide)⟩

/-- C7 counterexample: the claim predicts the rewritten command line
`foo/bar.sh baz` for the input program `C:\foo\bar.sh`, but the code only
replaces backslashes and keeps the drive prefix, producing
`C:/foo/bar.sh baz`. -/
theorem normalize_command_drops_drive_is_false :
    normalizeCommand "/bin/sh" true ["C:\\foo\\bar.sh", "baz"] true =
      some ["/bin/sh", "-c", "C:/foo/bar.sh baz"] ∧
    normalizeCommand "/bin/sh" true ["C:\\foo\\bar.sh", "baz"] true ≠
      some ["/bin/sh", "-c", "foo/bar.sh baz"] := by
  constructor
  · rfl
  · decide

/-- C7 amended: in the msys environment with `require_unix_environment`
true, `_normalize_command` slash-normalizes the program path (keeping any
drive prefix), joins program and arguments into one quoted command line,
and invokes through the detected shell with `-c`; so the example input
becomes `[<shell>, "-c", "C:/foo/bar.sh baz"]`. When
`require_unix_environment` is false or the process is not in msys, a
non-empty argument vector is returned unchanged. -/
theorem normalize_command_msys_rewrite (shell : String)
    (inMsys require_unix_environment : Bool) (a0 : String) (rest : List String) :
    (normalizeCommand shell true (a0 :: rest) true =
       some [shell, "-c", list2cmdline (slashify a0 :: rest)]) ∧
    (require_unix_environment = false ∨ inMsys = false →
       normalizeCommand shell inMsys (a0 :: rest) require_unix_environment =
         some (a0 :: rest)) ∧
    (normalizeCommand shell true ["C:\\foo\\bar.sh", "baz"] true =
       some [shell, "-c", "C:/foo/bar.sh baz"]) := by
  refine ⟨rfl, ?_, rfl⟩
  rintro (hr | hm)
  · simp [normalizeCommand, hr]
  · simp [normalizeCommand, hm]

/-- Closed instance of `normalize_command_msys_rewrite`: outside msys the
vector is unchanged; in msys the example is rewritten through the shell. -/
theorem normalize_command_msys_rewrite_witness :
    normalizeCommand "/bin/sh" false ["a.sh", "x"] true = some ["a.sh", "x"] ∧
    normalizeCommand "/bin/sh" true ["C:\\foo\\bar.sh", "baz"] true =
      some ["/bin/sh", "-c", "C:/foo/bar.sh baz"] :=
  ⟨(normalize_command_msys_rewrite "/bin/sh" false true "a.sh" ["x"]).2.1
     (Or.inr rfl),
   (normalize_command_msys_rewrite "/bin/sh" false true "C:\\foo\\bar.sh"
     ["baz"]).2.2⟩

/-- C8: `_run_command` raises exactly when the child status is non-zero and
`ignore_errors` is false; otherwise the status is returned unchanged. -/
theorem run_command_raises_iff (args : List String) (status : Int)
    (ignore_errors : Bool) :
    (runCommandStatusCheck args status ignore_errors = Except.error args ↔
       status ≠ 0 ∧ ignore_errors = false) ∧
    (status = 0 ∨ ignore_errors = true →
       runCommandStatusCheck args status ignore_errors = Except.ok status) := by
  constructor
  · constructor
    · intro he
      by_cases hs : status = 0
      · simp [runCommandStatusCheck, hs] at he
      · cases hi : ignore_errors
        · exact ⟨hs, rfl⟩
        · simp [runCommandStatusCheck, hi] at he
    · rintro ⟨hs, hi⟩
      simp [runCommandStatusCheck, hs, hi]
  · rintro (hs | hi)
    · simp [runCommandStatusCheck, hs]
    · simp [runCommandStatusCheck, hi]

/-- Closed instance of `run_command_raises_iff`: status 2 without
ignore_errors raises, status 2 with ignore_errors returns 2, status 0
returns 0. -/
theorem run_command_raises_iff_witness :
    runCommandStatusCheck ["flash.sh"] 2 false = Except.error ["flash.sh"] ∧
    runCommandStatusCheck ["flash.sh"] 2 true = Except.ok 2 ∧
    runCommandStatusCheck ["flash.sh"] 0 false = Except.ok 0 :=
  ⟨(run_command_raises_iff ["flash.sh"] 2 false).1.mpr ⟨by decide, rfl⟩,
   (run_command_raises_iff ["flash.sh"] 2 true).2 (Or.inr rfl),
   (run_command_raises_iff ["flash.sh"] 0 false).2 (Or.inl rfl)⟩

/-- C9: the first construction of a Mach instance sets the scan guard, and
any later construction leaves the process state (in particular the
registry) unchanged, so scanning twice adds no duplicate entries. -/
theorem modules_scanned_once (st : MachProcessState) (l1 l2 : List Descriptor) :
    (machInit l1 st).modulesScanned = true ∧
    machInit l2 (machInit l1 st) = machInit l1 st := by
  cases st with
  | mk scanned reg => cases scanned <;> simp [machInit]

/-- C10: on every outcome of the body (normal return, KeyboardInterrupt, or
an exception escaping `_run`), `Mach.run` restores `sys.stdin`,
`sys.stdout` and `sys.stderr` to the exact objects they referenced before
the call. -/
theorem run_restores_streams (sys0 : SysStreams)
    (argIn argOut argErr : Option StreamObj) (outcome : RunOutcome) :
    (machRun sys0 argIn argOut argErr outcome).2 = sys0 :=
  rfl

end B2G
